import Mathlib

/-
Verification of the Multi-Agent-RAG-Proposal-System pipeline.

The development shallowly embeds the coordination code of the repository:
dictionary payloads become association lists over a JSON-like value type,
Python numbers become rationals, fallible code returns Except, and the
external services (language model, FAISS search, HTML/PDF rendering) become
oracle function parameters.  Python dictionary-merge semantics
(later entries overwrite earlier ones, as in the splat merge of two dicts)
are modelled by list append together with a last-wins lookup.
-/

/-- JSON-like runtime values: the dynamic payloads exchanged between agents. -/
inductive Val : Type where
  | vstr : String → Val
  | vnum : ℚ → Val
  | vbool : Bool → Val
  | vlist : List Val → Val
  | vdict : List (String × Val) → Val
  | vbytes : List Nat → Val

/-- Last-wins association-list lookup: on duplicate keys the later entry
wins, matching Python dict-merge semantics when lists are appended. -/
def dictGet {α : Type} (d : List (String × α)) (k : String) : Option α :=
  match d with
  | [] => none
  | (k', v) :: rest =>
    match dictGet rest k with
    | some r => some r
    | none => if k' = k then some v else none

/-- Membership test for a key in an association list (Python in-operator). -/
def hasKey {α : Type} (d : List (String × α)) (k : String) : Bool :=
  d.any (fun p => p.1 == k)

/-- Entries of a dict value; non-dict values have no entries. -/
def Val.entries : Val → List (String × Val)
  | .vdict d => d
  | _ => []

/-- Subscript access v[k] on a value: KeyError when the key is absent,
TypeError when the value is not a dict. -/
def getKey (v : Val) (k : String) : Except String Val :=
  match v with
  | .vdict d =>
    match dictGet d k with
    | some r => .ok r
    | none => .error ("KeyError: " ++ k)
  | _ => .error "TypeError: value is not subscriptable"

/-- Python len() on a value: defined for strings, lists and dicts,
a TypeError otherwise. -/
def pyLen (v : Val) : Except String Nat :=
  match v with
  | .vstr s => .ok s.length
  | .vlist l => .ok l.length
  | .vdict d => .ok d.length
  | _ => .error "TypeError: object has no len"

/-- Numeric format-string application (the orchestrator prints the total
with a float format): succeeds exactly on numbers. -/
def formatNum (v : Val) : Except String ℚ :=
  match v with
  | .vnum q => .ok q
  | _ => .error "TypeError: unsupported format string"

/-- Required envelope keys checked by validate_mcp (utils/mcp.py line 68). -/
def required_keys : List String :=
  ["type", "sender", "receiver", "trace_id", "timestamp", "payload"]

/-- create_mcp (utils/mcp.py lines 36-43).  The uuid trace id and the
wall-clock timestamp are nondeterministic inputs and are passed in as
parameters of the embedding. -/
def create_mcp (sender receiver msg_type : String)
    (trace_id timestamp : String) (payload : Val) : List (String × Val) :=
  [("type", .vstr msg_type),
   ("sender", .vstr sender),
   ("receiver", .vstr receiver),
   ("trace_id", .vstr trace_id),
   ("timestamp", .vstr timestamp),
   ("payload", payload)]

/-- Whether an optional string argument is truthy in Python: present and
non-empty.  The absent argument (default None) and the empty string are
both falsy. -/
def truthyStr : Option String → Bool
  | none => false
  | some s => s ≠ ""

/-- Whether an optional value is the given string. -/
def valIsStr (v : Option Val) (t : String) : Bool :=
  match v with
  | some (.vstr s) => s == t
  | _ => false

/-- validate_mcp (utils/mcp.py lines 46-74): all six required keys must be
present; then, only when the expected type is truthy, the type tag must
equal it.  A falsy expected type (None or the empty string) skips the type
check entirely. -/
def validate_mcp (mcp : List (String × Val)) (expected_type : Option String) : Bool :=
  if ¬ (required_keys.all (fun k => hasKey mcp k)) then false
  else if truthyStr expected_type ∧ ¬ valIsStr (dictGet mcp "type") (expected_type.getD "") then false
  else true

/-- Structured message envelope: the image of create_mcp, used by the
orchestrator-level model (every inter-agent message in the source is
produced by create_mcp and therefore carries all six fields). -/
structure Mcp where
  type : String
  sender : String
  receiver : String
  trace_id : String
  timestamp : String
  payload : Val

/-- The dictionary a structured envelope denotes. -/
def Mcp.toDict (m : Mcp) : List (String × Val) :=
  create_mcp m.sender m.receiver m.type m.trace_id m.timestamp m.payload

/-- Constructor for structured envelopes in agent order (type first). -/
def mkMcp (type sender receiver trace_id timestamp : String) (payload : Val) : Mcp :=
  ⟨type, sender, receiver, trace_id, timestamp, payload⟩

-- Basic facts about the envelope dictionary produced by create_mcp.

theorem create_mcp_hasKeys (s r t tid ts : String) (p : Val) :
    required_keys.all (fun k => hasKey (create_mcp s r t tid ts p) k) = true := by
  simp [required_keys, hasKey, create_mcp, List.all, List.any]

theorem dictGet_create_mcp_type (s r t tid ts : String) (p : Val) :
    dictGet (create_mcp s r t tid ts p) "type" = some (.vstr t) := by
  simp [create_mcp, dictGet]

theorem validate_create_none (s r t tid ts : String) (p : Val) :
    validate_mcp (create_mcp s r t tid ts p) none = true := by
  simp [validate_mcp, create_mcp_hasKeys, truthyStr]

theorem validate_create_some (s r t tid ts t' : String) (p : Val) :
    validate_mcp (create_mcp s r t tid ts p) (some t') =
      (if t' = "" then true else t == t') := by
  simp only [validate_mcp, create_mcp_hasKeys, dictGet_create_mcp_type]
  by_cases h : t' = "" <;> by_cases h2 : t = t' <;>
    simp [truthyStr, valIsStr, h, h2, Option.getD]

/-- Project attributes as extracted by PricingAgent.calculate_pricing
(agents/pricing_agent.py lines 65-74), after the payload .get defaults
have been applied. -/
structure ProjectData where
  project_type : String
  complexity : String
  timeline_weeks : Nat
  additional_services : List String
  is_recurring_client : Bool
  client_type : String
  projects_completed_before : Nat
deriving DecidableEq

/-- The pricing rules table loaded from JSON.  A field is none when the
corresponding key is absent from the loaded dictionary: bracket access on
an absent key raises, while .get access substitutes the documented
default. -/
structure Rules where
  base_pricing : Option (List (String × List (String × ℚ)))
  timeline_multipliers : Option (List (String × ℚ))
  additional_services : Option (List (String × ℚ))
  client_type_multipliers : Option (List (String × ℚ))
  recurring_client_discount : Option ℚ
  tax_rate : Option ℚ

/-- Pricing breakdown record (agents/pricing_agent.py lines 117-137). -/
structure PricingBreakdown where
  base_price : ℚ
  timeline_multiplier : ℚ
  additional_services_cost : ℚ
  base_subtotal : ℚ
  client_type_multiplier : ℚ
  recurring_discount_rate : ℚ
  discount_amount : ℚ
  subtotal : ℚ
  tax : ℚ
  total : ℚ
  project_details : ProjectData
deriving DecidableEq

/-- Turn an optional lookup into bracket access: error on a missing key. -/
def need {α : Type} (o : Option α) (msg : String) : Except String α :=
  match o with
  | some a => .ok a
  | none => .error msg

/-- Recurring-client discount (agents/pricing_agent.py lines 94-105):
zero unless the recurring flag is set; otherwise the base discount
(rules value, default 0.1) plus the loyalty staircase. -/
def recurringDiscount (rules : Rules) (is_recurring_client : Bool)
    (projects_completed_before : Nat) : ℚ :=
  if is_recurring_client then
    let base := rules.recurring_client_discount.getD (1/10)
    if projects_completed_before ≥ 5 then base + 5/100
    else if projects_completed_before ≥ 3 then base + 3/100
    else if projects_completed_before ≥ 1 then base + 2/100
    else base
  else 0

/-- Additional-services cost loop (agents/pricing_agent.py lines 83-85):
bracket access on the additional_services table happens once per listed
service, so a missing table only raises when the service list is
non-empty; unknown service names contribute zero. -/
def computeAdditionalCost (rules : Rules) : List String → Except String ℚ
  | [] => .ok 0
  | s :: rest => do
    let tbl ← need rules.additional_services "KeyError: additional_services"
    let c := (dictGet tbl s).getD 0
    let r ← computeAdditionalCost rules rest
    return c + r

/-- PricingAgent.calculate_pricing, arithmetic core (agents/pricing_agent.py
lines 76-137): from the extracted project data and the rules table to the
pricing breakdown.  Envelope wrapping is done by pricingAgentStage. -/
def calculate_pricing (pd : ProjectData) (rules : Rules) :
    Except String PricingBreakdown := do
  let bp ← need rules.base_pricing "KeyError: base_pricing"
  let byType ← need (dictGet bp pd.project_type) ("KeyError: " ++ pd.project_type)
  let base_price ← need (dictGet byType pd.complexity) ("KeyError: " ++ pd.complexity)
  let tmt ← need rules.timeline_multipliers "KeyError: timeline_multipliers"
  let timeline_multiplier := (dictGet tmt (toString pd.timeline_weeks)).getD 1
  let additional_cost ← computeAdditionalCost rules pd.additional_services
  let base_subtotal := base_price * timeline_multiplier + additional_cost
  let client_type_multiplier :=
    (dictGet (rules.client_type_multipliers.getD []) pd.client_type).getD 1
  let recurring_discount :=
    recurringDiscount rules pd.is_recurring_client pd.projects_completed_before
  let adjusted_price := base_subtotal * client_type_multiplier
  let discount_amount := adjusted_price * recurring_discount
  let subtotal := adjusted_price - discount_amount
  let taxRate ← need rules.tax_rate "KeyError: tax_rate"
  let tax := subtotal * taxRate
  let total := subtotal + tax
  return { base_price := base_price
           timeline_multiplier := timeline_multiplier
           additional_services_cost := additional_cost
           base_subtotal := base_subtotal
           client_type_multiplier := client_type_multiplier
           recurring_discount_rate := recurring_discount
           discount_amount := discount_amount
           subtotal := subtotal
           tax := tax
           total := total
           project_details := pd }

/-- The nested base-price lookup rules.base_pricing[pt][cx] as one option. -/
def lookupBase (rules : Rules) (pt cx : String) : Option ℚ := do
  let bp ← rules.base_pricing
  let byType ← dictGet bp pt
  dictGet byType cx

/-- Specification-level additional cost: sum of per-service add-on costs,
unknown services contributing zero. -/
def additionalCostSpec (tbl : List (String × ℚ)) (services : List String) : ℚ :=
  (services.map (fun s => (dictGet tbl s).getD 0)).sum

/-- Split a character list at every occurrence of the two-character
separator period-space, scanning left to right without overlap and
keeping empty pieces, exactly as Python str.split with that separator. -/
def splitDotSpaceL : List Char → List (List Char)
  | '.' :: ' ' :: rest => [] :: splitDotSpaceL rest
  | c :: rest =>
    match splitDotSpaceL rest with
    | chunk :: more => (c :: chunk) :: more
    | [] => [[c]]
  | [] => [[]]

/-- Python text.split of the clean-up routine with its fixed
period-space separator. -/
def pySplitDotSpace (s : String) : List String :=
  (splitDotSpaceL s.data).map String.mk

/-- Python str.strip(): remove leading and trailing whitespace. -/
def pyStrip (s : String) : String :=
  ⟨((s.data.dropWhile Char.isWhitespace).reverse.dropWhile Char.isWhitespace).reverse⟩

/-- Python str.lower() (ASCII case mapping, which covers the corpus). -/
def pyLower (s : String) : String :=
  ⟨s.data.map Char.toLower⟩

/-- Python s.endswith with the one-character period suffix. -/
def endsWithDot (s : String) : Bool :=
  s.data.getLast? == some '.'

/-- Split a character list at every whitespace character, keeping empty
pieces. -/
def splitWsL : List Char → List (List Char)
  | [] => [[]]
  | c :: rest =>
    if c.isWhitespace then [] :: splitWsL rest
    else
      match splitWsL rest with
      | chunk :: more => (c :: chunk) :: more
      | [] => [[c]]

/-- Python str.split() with no argument: split on whitespace runs,
discarding empty pieces. -/
def pySplitWs (s : String) : List String :=
  ((splitWsL s.data).map String.mk).filter (fun w => w ≠ "")

/-- Deduplication loop of WritingAgent._clean_generated_text
(agents/writing_agent.py lines 213-221): each chunk is stripped; a chunk
survives when it is non-empty after stripping and its lowercase form has
not been seen before; the lowercase forms of survivors accumulate in the
seen set (modelled as a list). -/
def cleanDedupAux (seen : List String) : List String → List String
  | [] => []
  | s :: rest =>
    let t := pyStrip s
    if t ≠ "" ∧ pyLower t ∉ seen then
      t :: cleanDedupAux (pyLower t :: seen) rest
    else cleanDedupAux seen rest

/-- WritingAgent._clean_generated_text (agents/writing_agent.py
lines 202-237). -/
def _clean_generated_text (text : String) : String :=
  let sentences := pySplitDotSpace text
  let unique_sentences := cleanDedupAux [] sentences
  let cleaned := String.intercalate ". " unique_sentences
  let cleaned := if cleaned ≠ "" ∧ ¬ endsWithDot cleaned then cleaned ++ "." else cleaned
  if cleaned.length > 800 then
    let words := pySplitWs cleaned
    if words.length > 120 then String.intercalate " " (words.take 120) ++ "." else cleaned
  else cleaned

/-- Modelled from the claim wording for comparison (claim C7): split on
the period-space separator, drop empty chunks and case-insensitive
repeats without stripping, rejoin, ensure a trailing period, and truncate
to the first 120 words plus a period whenever the result exceeds 800
characters. -/
def cleanSpecC7Dedup (seen : List String) : List String → List String
  | [] => []
  | s :: rest =>
    if s ≠ "" ∧ pyLower s ∉ seen then
      s :: cleanSpecC7Dedup (pyLower s :: seen) rest
    else cleanSpecC7Dedup seen rest

/-- Modelled from the claim wording for comparison (claim C7): the
clean-up algorithm exactly as the claim describes it. -/
def cleanSpecC7 (text : String) : String :=
  let chunks := pySplitDotSpace text
  let survivors := cleanSpecC7Dedup [] chunks
  let cleaned := String.intercalate ". " survivors
  let cleaned := if cleaned ≠ "" ∧ ¬ endsWithDot cleaned then cleaned ++ "." else cleaned
  if cleaned.length > 800 then String.intercalate " " ((pySplitWs cleaned).take 120) ++ "."
  else cleaned

/-- First-occurrence case-insensitive deduplication, stated declaratively:
keep the head and drop every later chunk with the same lowercase form. -/
def dedupFirst : List String → List String
  | [] => []
  | t :: rest => t :: dedupFirst (rest.filter (fun u => pyLower u ≠ pyLower t))
termination_by l => l.length
decreasing_by
  simp only [List.length_cons]
  exact Nat.lt_succ_of_le (List.length_filter_le _ _)

/-- Amended clean-up algorithm (claim C7 corrected): chunks are stripped
before the emptiness and deduplication tests, and truncation requires
both more than 800 characters and more than 120 words. -/
def cleanAmendedC7 (text : String) : String :=
  let stripped := (pySplitDotSpace text).map pyStrip
  let survivors := dedupFirst (stripped.filter (fun t => t ≠ ""))
  let cleaned := String.intercalate ". " survivors
  let cleaned := if cleaned ≠ "" ∧ ¬ endsWithDot cleaned then cleaned ++ "." else cleaned
  if cleaned.length > 800 ∧ (pySplitWs cleaned).length > 120 then
    String.intercalate " " ((pySplitWs cleaned).take 120) ++ "."
  else cleaned

/-- Variables the writing agent extracts from the project payload
(agents/writing_agent.py lines 132-138), already stringified and joined
exactly as the prompts and fallbacks consume them. -/
structure WritingVars where
  client_name : String
  project_title : String
  project_description : String
  timeline_months : String
  requirements : String
  technologies : String
  client_type : String
deriving DecidableEq

/-- Python str.title() character transform: alphabetic characters are
uppercased at word starts and lowercased elsewhere. -/
def pyTitleAux : Bool → List Char → List Char
  | _, [] => []
  | prevAlpha, c :: cs =>
    (if c.isAlpha then (if prevAlpha then c.toLower else c.toUpper) else c)
      :: pyTitleAux c.isAlpha cs

/-- Python str.title(). -/
def pyTitle (s : String) : String :=
  ⟨pyTitleAux false s.data⟩

/-- Fixed benefit list (agents/writing_agent.py line 141). -/
def key_benefits : String :=
  "enhanced digital presence, improved user experience, scalable technology solutions, competitive advantage"

/-- Executive-summary prompt (agents/writing_agent.py lines 71-81, 149-155). -/
def execPrompt (v : WritingVars) : String :=
  "Write an executive summary for " ++ v.client_name ++ "\x27s " ++ v.project_title ++
  ".\n\nProject: " ++ v.project_description ++
  "\nTimeline: " ++ v.timeline_months ++ " months\nBenefits: " ++ key_benefits ++
  "\n\nCreate a professional summary that highlights the project value, scope, and our expertise. Focus on business benefits and outcomes.\n\nExecutive Summary:"

/-- Project-overview prompt (agents/writing_agent.py lines 83-94, 161-168). -/
def overviewPrompt (v : WritingVars) : String :=
  "Write a project overview for " ++ v.project_title ++
  ".\n\nDescription: " ++ v.project_description ++
  "\nRequirements: " ++ v.requirements ++
  "\nTechnologies: " ++ v.technologies ++
  "\nTimeline: " ++ v.timeline_months ++ " months" ++
  "\n\nExplain the project goals, technical approach, key features, and expected deliverables. Be specific and professional.\n\nProject Overview:"

/-- Methodology prompt (agents/writing_agent.py lines 96-107, 174-179);
the client type is underscore-split and title-cased at the call site. -/
def methodologyPrompt (v : WritingVars) : String :=
  "Write a methodology section for " ++ v.project_title ++
  ".\n\nProject: " ++ v.project_description ++
  "\nTechnologies: " ++ v.technologies ++
  "\nClient: " ++ pyTitle ((v.client_type.replace "_" " ")) ++
  "\n\nDescribe our development process, project phases, quality assurance, and collaboration approach. Emphasize expertise and proven methods.\n\nMethodology:"

/-- Fallback executive summary (agents/writing_agent.py line 189). -/
def fallbackExec (v : WritingVars) : String :=
  "This proposal outlines a comprehensive " ++ v.project_title ++ " for " ++
  v.client_name ++
  ", designed to deliver significant business value through modern technology solutions and proven methodologies over a " ++
  v.timeline_months ++ "-month timeline."

/-- Fallback project overview (agents/writing_agent.py line 190). -/
def fallbackOverview (v : WritingVars) : String :=
  "The " ++ v.project_title ++ " represents a strategic initiative to enhance " ++
  v.client_name ++
  "\x27s digital capabilities. This project encompasses " ++ v.requirements ++
  " and will be implemented using cutting-edge technologies including " ++
  v.technologies ++ "."

/-- Fallback methodology (agents/writing_agent.py line 191). -/
def fallbackMethodology (v : WritingVars) : String :=
  "Our proven methodology for " ++ v.project_title ++
  " combines agile development practices with continuous client collaboration, ensuring high-quality deliverables and successful project outcomes."

/-- The three fallback sections, in insertion order
(agents/writing_agent.py lines 188-192). -/
def fallbackSections (v : WritingVars) : List (String × String) :=
  [("executive_summary", fallbackExec v),
   ("project_overview", fallbackOverview v),
   ("methodology", fallbackMethodology v)]

/-- The try-block of WritingAgent.generate_proposal_sections
(agents/writing_agent.py lines 146-183): three external generation calls
in sequence, each stripped and cleaned.  The llm oracle returns an error
when the external call raises. -/
def tryGenerateSections (llm : String → Except String String) (v : WritingVars) :
    Except String (List (String × String)) := do
  let execResult ← llm (execPrompt v)
  let execClean := _clean_generated_text (pyStrip execResult)
  let overviewResult ← llm (overviewPrompt v)
  let overviewClean := _clean_generated_text (pyStrip overviewResult)
  let methodologyResult ← llm (methodologyPrompt v)
  let methodologyClean := _clean_generated_text (pyStrip methodologyResult)
  return [("executive_summary", execClean),
          ("project_overview", overviewClean),
          ("methodology", methodologyClean)]

/-- Stringify a numeric payload value the way an f-string would; integral
rationals print without a denominator. -/
def numStr (q : ℚ) : String :=
  if q.den = 1 then toString q.num else toString q

/-- Read a payload field as a string with a .get default: absent keys
take the default; fields of unexpected runtime type are outside the
modelled payload schema and are reported as an unmodelled error (Python
would stringify them through the f-string machinery; no claim exercises
that path). -/
def getStrFieldD (d : List (String × Val)) (k dflt : String) : Except String String :=
  match dictGet d k with
  | none => .ok dflt
  | some (.vstr s) => .ok s
  | some (.vnum q) => .ok (numStr q)
  | some _ => .error ("unmodelled payload field type: " ++ k)

/-- Read a list-of-strings payload field and join it with a separator,
with a .get default for absent keys (already joined). -/
def getJoinedFieldD (d : List (String × Val)) (k sep dflt : String) :
    Except String String :=
  match dictGet d k with
  | none => .ok dflt
  | some (.vlist l) => do
    let parts ← l.mapM (fun v =>
      match v with
      | .vstr s => Except.ok s
      | _ => Except.error ("unmodelled payload element type: " ++ k))
    return String.intercalate sep parts
  | some _ => .error ("unmodelled payload field type: " ++ k)

/-- Variable extraction of WritingAgent.generate_proposal_sections
(agents/writing_agent.py lines 129-138).  This code runs outside the
try-block, so a failure here propagates out of the agent. -/
def extractWritingVars (payload : Val) : Except String WritingVars := do
  let d ← (match payload with
    | .vdict d => Except.ok d
    | _ => Except.error "TypeError: payload is not a dict")
  let client_name ← getStrFieldD d "client_name" "Our Valued Client"
  let project_title ← getStrFieldD d "project_title" "Digital Transformation Project"
  let project_description ← getStrFieldD d "project_description" "A comprehensive digital solution"
  let timeline_months ← getStrFieldD d "timeline_months" "6"
  let requirements ← getJoinedFieldD d "requirements" ", "
    "Modern design, User-friendly interface, Scalable architecture"
  let technologies ← getJoinedFieldD d "target_technologies" ", " "React, Node.js, MongoDB"
  let client_type ← getStrFieldD d "client_type" "business"
  return { client_name := client_name
           project_title := project_title
           project_description := project_description
           timeline_months := timeline_months
           requirements := requirements
           technologies := technologies
           client_type := client_type }

/-- WritingAgent.generate_proposal_sections (agents/writing_agent.py
lines 110-200): extract the variables, attempt the three generation
calls, fall back to the fixed deterministic template strings when any of
them raises, and wrap the sections in a PROPOSAL_SECTIONS_GENERATED
envelope. -/
def generate_proposal_sections (llm : String → Except String String)
    (trace_id timestamp : String) (m : Mcp) : Except String Mcp := do
  let v ← extractWritingVars m.payload
  let sections :=
    match tryGenerateSections llm v with
    | .ok s => s
    | .error _ => fallbackSections v
  return mkMcp "PROPOSAL_SECTIONS_GENERATED" "WritingAgent" "Orchestrator"
    trace_id timestamp (.vdict (sections.map (fun p => (p.1, Val.vstr p.2))))

/-- A case study record from the static corpus (data/case_studies.json):
the four fields the agent reads when building the index and the query. -/
structure CaseStudy where
  title : String
  industry : String
  project_type : String
  description : String
deriving DecidableEq

/-- A retrieved case: a copy of a corpus record augmented with the
similarity score attached at retrieval time
(agents/case_study_agent.py lines 145-147). -/
structure RetrievedCase where
  case : CaseStudy
  similarity_score : ℚ
deriving DecidableEq

/-- Encode a retrieved case as a payload value. -/
def RetrievedCase.toVal (c : RetrievedCase) : Val :=
  .vdict [("title", .vstr c.case.title),
          ("industry", .vstr c.case.industry),
          ("project_type", .vstr c.case.project_type),
          ("description", .vstr c.case.description),
          ("similarity_score", .vnum c.similarity_score)]

/-- The FAISS index handle: the only observable the agent code relies on
is the number of stored vectors (one per corpus record). -/
structure FaissIndex where
  ntotal : Nat
deriving DecidableEq

/-- A Python instance attribute: reading an attribute that was never
assigned raises AttributeError, which this wrapper distinguishes from an
attribute that holds None. -/
inductive AttrOption (α : Type) where
  | unset : AttrOption α
  | val : α → AttrOption α
deriving DecidableEq

/-- CaseStudyAgent instance state after initialization. -/
structure CaseStudyAgent where
  case_studies : List CaseStudy
  index : AttrOption (Option FaissIndex)

/-- CaseStudyAgent.init (agents/case_study_agent.py lines 22-53).  The
load result is none when opening the case-studies file raises
FileNotFoundError: that branch sets an empty corpus and returns early,
never assigning self.index.  On a successful load, a non-empty corpus
gets a built index and an empty corpus gets index None. -/
def CaseStudyAgent.init (loadResult : Option (List CaseStudy)) : CaseStudyAgent :=
  match loadResult with
  | none => { case_studies := [], index := .unset }
  | some cs =>
    if cs ≠ [] then { case_studies := cs, index := .val (some ⟨cs.length⟩) }
    else { case_studies := cs, index := .val none }

/-- Python list subscript with an integer index: negative indices count
from the end; out-of-range access raises IndexError. -/
def pyListGet {α : Type} (l : List α) (i : Int) : Except String α :=
  let j : Int := if i < 0 then (l.length : Int) + i else i
  if j < 0 then .error "IndexError: list index out of range"
  else
    match l.get? j.toNat with
    | some x => .ok x
    | none => .error "IndexError: list index out of range"

/-- Result-collection loop of CaseStudyAgent.retrieve_relevant_cases
(agents/case_study_agent.py lines 142-147): scores and indices are
consumed in lockstep (FAISS returns arrays of equal shape, modelled as a
list of pairs); sentinel index -1 entries are skipped; every other index
subscripts the corpus list. -/
def collectCases (cs : List CaseStudy) : List (ℚ × Int) → Except String (List RetrievedCase)
  | [] => .ok []
  | (score, idx) :: rest =>
    if idx = -1 then collectCases cs rest
    else do
      let c ← pyListGet cs idx
      let r ← collectCases cs rest
      return { case := c, similarity_score := score } :: r

/-- Query text construction (agents/case_study_agent.py lines 123-130):
.get with an empty-string default per component, joined list of
additional services, empty components filtered out, space-joined.
Components of unexpected runtime type are modelled as empty (no claim
inspects the query text, which only feeds the external encoder). -/
def buildQuery (d : List (String × Val)) : String :=
  let comp := fun k =>
    match dictGet d k with
    | some (.vstr s) => s
    | _ => ""
  let services :=
    match dictGet d "additional_services" with
    | some (.vlist l) =>
      String.intercalate " " (l.filterMap (fun v =>
        match v with
        | .vstr s => some s
        | _ => none))
    | _ => ""
  let components := [comp "project_type", comp "industry", comp "description",
                     comp "complexity", services]
  String.intercalate " " (components.filter (fun s => s ≠ ""))

/-- The empty retrieval envelope returned when no corpus or index is
available. -/
def emptyCasesEnvelope (trace_id timestamp : String) : Mcp :=
  mkMcp "CASE_STUDIES_RETRIEVED" "CaseStudyAgent" "Orchestrator"
    trace_id timestamp (.vdict [("relevant_cases", .vlist [])])

/-- CaseStudyAgent.retrieve_relevant_cases (agents/case_study_agent.py
lines 90-159).  The guard on line 110 reads self.index first, so an
agent whose index attribute was never assigned raises AttributeError
before anything else happens.  The embedding model and FAISS search are
one oracle from (query text, k) to the score/index rows. -/
def retrieve_relevant_cases (agent : CaseStudyAgent)
    (search : String → Nat → List (ℚ × Int))
    (trace_id timestamp : String) (m : Mcp) (k : Nat) : Except String Mcp := do
  let idxAttr ← (match agent.index with
    | .unset => Except.error "AttributeError: CaseStudyAgent object has no attribute index"
    | .val v => Except.ok v)
  if idxAttr = none ∨ agent.case_studies = [] then
    return emptyCasesEnvelope trace_id timestamp
  else do
    let d := m.payload.entries
    let query_text := buildQuery d
    let results := search query_text k
    let cases ← collectCases agent.case_studies results
    return mkMcp "CASE_STUDIES_RETRIEVED" "CaseStudyAgent" "Orchestrator"
      trace_id timestamp (.vdict [("relevant_cases", .vlist (cases.map RetrievedCase.toVal))])

/-- Fixed degradation note of the HTML-only output
(agents/template_agent.py line 116). -/
def htmlNote : String := "PDF generation unavailable - HTML output provided"

/-- TemplateAgent.generate_pdf_proposal (agents/template_agent.py
lines 35-118).  Jinja template rendering and the WeasyPrint conversion
are oracles: renderHtml maps the payload to the rendered HTML string and
pdfRender returns the produced bytes, or none when the conversion raises
(both ImportError and rendering errors are caught).  A successful
conversion that yields empty bytes is falsy in Python and also takes the
HTML-only branch. -/
def generate_pdf_proposal (renderHtml : Val → String)
    (pdfRender : String → Option (List Nat))
    (trace_id timestamp : String) (m : Mcp) : Mcp :=
  let html_content := renderHtml m.payload
  match pdfRender html_content with
  | some pdf_bytes =>
    if pdf_bytes ≠ [] then
      mkMcp "PDF_GENERATED" "TemplateAgent" "Orchestrator" trace_id timestamp
        (.vdict [("pdf_bytes", .vbytes pdf_bytes), ("html_content", .vstr html_content)])
    else
      mkMcp "HTML_GENERATED" "TemplateAgent" "Orchestrator" trace_id timestamp
        (.vdict [("html_content", .vstr html_content), ("note", .vstr htmlNote)])
  | none =>
    mkMcp "HTML_GENERATED" "TemplateAgent" "Orchestrator" trace_id timestamp
      (.vdict [("html_content", .vstr html_content), ("note", .vstr htmlNote)])

/-- Read a payload field as a string with a .get default, strictly: a
present value of non-string runtime type is outside the modelled schema
(the pricing agent would use it unchanged as a rules-dictionary key). -/
def getStrFieldStrict (d : List (String × Val)) (k dflt : String) : Except String String :=
  match dictGet d k with
  | none => .ok dflt
  | some (.vstr s) => .ok s
  | some _ => .error ("unmodelled payload field type: " ++ k)

/-- Read a payload field as a natural number with a .get default. -/
def getNatFieldD (d : List (String × Val)) (k : String) (dflt : Nat) : Except String Nat :=
  match dictGet d k with
  | none => .ok dflt
  | some (.vnum q) =>
    if q.den = 1 ∧ 0 ≤ q.num then .ok q.num.toNat
    else .error ("unmodelled payload field type: " ++ k)
  | some _ => .error ("unmodelled payload field type: " ++ k)

/-- Read a payload field as a boolean with a .get default. -/
def getBoolFieldD (d : List (String × Val)) (k : String) (dflt : Bool) : Except String Bool :=
  match dictGet d k with
  | none => .ok dflt
  | some (.vbool b) => .ok b
  | some _ => .error ("unmodelled payload field type: " ++ k)

/-- Read a payload field as a list of strings with a .get default. -/
def getStrListFieldD (d : List (String × Val)) (k : String) (dflt : List String) :
    Except String (List String) :=
  match dictGet d k with
  | none => .ok dflt
  | some (.vlist l) =>
    l.mapM (fun v =>
      match v with
      | .vstr s => Except.ok s
      | _ => Except.error ("unmodelled payload element type: " ++ k))
  | some _ => .error ("unmodelled payload field type: " ++ k)

/-- Payload extraction of PricingAgent.calculate_pricing
(agents/pricing_agent.py lines 64-74): each field read with .get and its
documented default. -/
def extractProjectData (payload : Val) : Except String ProjectData := do
  let d ← (match payload with
    | .vdict d => Except.ok d
    | _ => Except.error "TypeError: payload is not a dict")
  let project_type ← getStrFieldStrict d "project_type" "website"
  let complexity ← getStrFieldStrict d "complexity" "medium"
  let timeline_weeks ← getNatFieldD d "timeline_weeks" 4
  let additional_services ← getStrListFieldD d "additional_services" []
  let is_recurring_client ← getBoolFieldD d "is_recurring_client" false
  let client_type ← getStrFieldStrict d "client_type" "enterprise"
  let projects_completed_before ← getNatFieldD d "projects_completed_before" 0
  return { project_type := project_type
           complexity := complexity
           timeline_weeks := timeline_weeks
           additional_services := additional_services
           is_recurring_client := is_recurring_client
           client_type := client_type
           projects_completed_before := projects_completed_before }

/-- Echoed project details of the pricing breakdown
(agents/pricing_agent.py lines 128-136). -/
def ProjectData.toVal (pd : ProjectData) : Val :=
  .vdict [("type", .vstr pd.project_type),
          ("complexity", .vstr pd.complexity),
          ("timeline_weeks", .vnum pd.timeline_weeks),
          ("services", .vlist (pd.additional_services.map Val.vstr)),
          ("client_type", .vstr pd.client_type),
          ("is_recurring_client", .vbool pd.is_recurring_client),
          ("projects_completed_before", .vnum pd.projects_completed_before)]

/-- The pricing breakdown as the payload dictionary the agent builds
(agents/pricing_agent.py lines 117-137). -/
def PricingBreakdown.toVal (br : PricingBreakdown) : Val :=
  .vdict [("base_price", .vnum br.base_price),
          ("timeline_multiplier", .vnum br.timeline_multiplier),
          ("additional_services_cost", .vnum br.additional_services_cost),
          ("base_subtotal", .vnum br.base_subtotal),
          ("client_type_multiplier", .vnum br.client_type_multiplier),
          ("recurring_discount_rate", .vnum br.recurring_discount_rate),
          ("discount_amount", .vnum br.discount_amount),
          ("subtotal", .vnum br.subtotal),
          ("tax", .vnum br.tax),
          ("total", .vnum br.total),
          ("project_details", br.project_details.toVal)]

/-- PricingAgent.calculate_pricing as the orchestrator sees it
(agents/pricing_agent.py lines 35-144): extract the payload, compute the
breakdown, wrap it in a PRICING_CALCULATED envelope; any raised KeyError
propagates to the caller. -/
def pricingAgentStage (rules : Rules) (trace_id timestamp : String) (m : Mcp) :
    Except String Mcp := do
  let pd ← extractProjectData m.payload
  let br ← calculate_pricing pd rules
  return mkMcp "PRICING_CALCULATED" "PricingAgent" "Orchestrator" trace_id timestamp
    (.vdict [("pricing", br.toVal)])

/-- The error envelope of the orchestrator except-handler
(orchestrator.py lines 147-155). -/
def generationErrorEnvelope (trace_id timestamp : String) (e : String)
    (partial_data : List (String × Val)) : Mcp :=
  mkMcp "GENERATION_ERROR" "Orchestrator" "UserInterface" trace_id timestamp
    (.vdict [("error", .vstr e), ("partial_data", .vdict partial_data)])

/-- Steps 2-4 of ProposalOrchestrator.generate_complete_proposal
(orchestrator.py lines 74-101): pricing, writing and retrieval stages,
each followed by its envelope validation and the subscript chains of the
progress prints, modelled by getKey/pyLen/formatNum in source order; the
three extracted payload values feed the merge of step 5. -/
def orchestratorStage1 (pricing writing cases : Mcp → Except String Mcp)
    (project_mcp : Mcp) : Except String (Val × Val × Val) := do
  let pricing_mcp ← pricing project_mcp
  if ¬ validate_mcp pricing_mcp.toDict (some "PRICING_CALCULATED") then
    throw "Pricing calculation failed - invalid MCP response"
  let pricingVal ← getKey pricing_mcp.payload "pricing"
  let totalVal ← getKey pricingVal "total"
  let _ ← formatNum totalVal
  let sections_mcp ← writing project_mcp
  if ¬ validate_mcp sections_mcp.toDict (some "PROPOSAL_SECTIONS_GENERATED") then
    throw "Proposal writing failed - invalid MCP response"
  let sectionsVal ← getKey sections_mcp.payload "sections"
  let _ ← pyLen sectionsVal
  let cases_mcp ← cases project_mcp
  if ¬ validate_mcp cases_mcp.toDict (some "CASE_STUDIES_RETRIEVED") then
    throw "Case study retrieval failed - invalid MCP response"
  let casesVal ← getKey cases_mcp.payload "relevant_cases"
  let _ ← pyLen casesVal
  return (pricingVal, sectionsVal, casesVal)

/-- The step-5 merge (orchestrator.py lines 104-109): the original brief
dictionary extended with the three stage outputs; with last-wins lookup
the appended entries overwrite earlier keys of the same name. -/
def combinedPayload (project_data : List (String × Val)) (pricingVal sectionsVal casesVal : Val) :
    List (String × Val) :=
  project_data ++
    [("pricing", pricingVal), ("sections", sectionsVal), ("relevant_cases", casesVal)]

/-- Steps 6-7 of ProposalOrchestrator.generate_complete_proposal
(orchestrator.py lines 118-140): call the template stage on the combined
envelope, accept either PDF_GENERATED or HTML_GENERATED, and splat-merge
the template payload over the combined data into the final envelope. -/
def orchestratorStage2 (template : Mcp → Except String Mcp)
    (combined_data : List (String × Val)) (trace_id timestamp : String) :
    Except String Mcp := do
  let pdf_mcp ← template (mkMcp "GENERATE_PDF" "Orchestrator" "TemplateAgent"
    trace_id timestamp (.vdict combined_data))
  if ¬ (validate_mcp pdf_mcp.toDict (some "PDF_GENERATED") ∨
        validate_mcp pdf_mcp.toDict (some "HTML_GENERATED")) then
    throw "PDF generation failed - invalid MCP response"
  let pdfEntries ← (match pdf_mcp.payload with
    | .vdict d => Except.ok d
    | _ => Except.error "TypeError: payload is not a mapping")
  return mkMcp pdf_mcp.type "Orchestrator" "UserInterface" trace_id timestamp
    (.vdict (combined_data ++ pdfEntries))

/-- ProposalOrchestrator.generate_complete_proposal
(orchestrator.py lines 49-155).  The four agents are passed as stage
functions; an Except error models a raised exception inside a stage.  The
first block covers steps 1-4 (before combined_data exists, so the
exception handler reports empty partial data); the second block covers
steps 6-7 (partial data is combined_data). -/
def generate_complete_proposal
    (pricing writing cases template : Mcp → Except String Mcp)
    (project_data : List (String × Val)) (trace_id timestamp : String) : Mcp :=
  let project_mcp := mkMcp "PROPOSAL_REQUEST" "UserInterface" "Orchestrator"
    trace_id timestamp (.vdict project_data)
  match orchestratorStage1 pricing writing cases project_mcp with
  | .error e => generationErrorEnvelope trace_id timestamp e []
  | .ok (pricingVal, sectionsVal, casesVal) =>
    let combined_data := combinedPayload project_data pricingVal sectionsVal casesVal
    match orchestratorStage2 template combined_data trace_id timestamp with
    | .error e => generationErrorEnvelope trace_id timestamp e combined_data
    | .ok finalMcp => finalMcp

-- Plumbing lemmas for the Except monad and option lookups.

@[simp] theorem need_some {α : Type} (a : α) (msg : String) :
    need (some a) msg = .ok a := rfl

@[simp] theorem need_none {α : Type} (msg : String) :
    need (none : Option α) msg = .error msg := rfl

@[simp] theorem ok_bind {α β : Type} (a : α) (f : α → Except String β) :
    (Except.ok a : Except String α) >>= f = f a := rfl

@[simp] theorem error_bind {α β : Type} (e : String) (f : α → Except String β) :
    (Except.error e : Except String α) >>= f = .error e := rfl

/-- When the additional-services table is present, or no services are
listed, the loop computes the specification sum: per-service lookups with
unknown names contributing zero. -/
theorem computeAdditionalCost_eq (rules : Rules) (services : List String)
    (h : rules.additional_services ≠ none ∨ services = []) :
    computeAdditionalCost rules services =
      .ok (additionalCostSpec (rules.additional_services.getD []) services) := by
  rcases h with h | h
  · obtain ⟨tbl, htbl⟩ := Option.ne_none_iff_exists'.mp h
    induction services with
    | nil => rfl
    | cons s rest ih =>
      simp [computeAdditionalCost, additionalCostSpec, htbl, ih] at ih ⊢
  · subst h
    rfl

/-- Full symbolic evaluation of calculate_pricing under the definedness
hypotheses the bracket accesses require. -/
theorem calculate_pricing_spec (pd : ProjectData) (rules : Rules)
    (bp : List (String × List (String × ℚ))) (byType : List (String × ℚ))
    (base : ℚ) (tmt : List (String × ℚ)) (tr : ℚ)
    (hbp : rules.base_pricing = some bp)
    (hbt : dictGet bp pd.project_type = some byType)
    (hbase : dictGet byType pd.complexity = some base)
    (htm : rules.timeline_multipliers = some tmt)
    (htax : rules.tax_rate = some tr)
    (hsvc : rules.additional_services ≠ none ∨ pd.additional_services = []) :
    calculate_pricing pd rules =
      .ok (let tm := (dictGet tmt (toString pd.timeline_weeks)).getD 1
           let ac := additionalCostSpec (rules.additional_services.getD []) pd.additional_services
           let cm := (dictGet (rules.client_type_multipliers.getD []) pd.client_type).getD 1
           let disc := recurringDiscount rules pd.is_recurring_client pd.projects_completed_before
           let base_subtotal := base * tm + ac
           let adjusted := base_subtotal * cm
           let discount_amount := adjusted * disc
           let subtotal := adjusted - discount_amount
           let tax := subtotal * tr
           { base_price := base
             timeline_multiplier := tm
             additional_services_cost := ac
             base_subtotal := base_subtotal
             client_type_multiplier := cm
             recurring_discount_rate := disc
             discount_amount := discount_amount
             subtotal := subtotal
             tax := tax
             total := subtotal + tax
             project_details := pd }) := by
  have hac := computeAdditionalCost_eq rules pd.additional_services hsvc
  simp only [calculate_pricing, hbp, hbt, hbase, htm, htax, hac, need_some, ok_bind]
  rfl

/-- The §8 example brief: website, medium, 4 weeks, no extra services,
enterprise, not recurring. -/
def c1ExampleBrief : ProjectData :=
  { project_type := "website", complexity := "medium", timeline_weeks := 4,
    additional_services := [], is_recurring_client := false,
    client_type := "enterprise", projects_completed_before := 0 }

/-- The §8 example rules table. -/
def c1ExampleRules : Rules :=
  { base_pricing := some [("website", [("medium", 10000)])]
    timeline_multipliers := some [("4", 1)]
    additional_services := none
    client_type_multipliers := some [("enterprise", 1)]
    recurring_client_discount := none
    tax_rate := some (8/100) }

/-- A rules table satisfying the definedness premises of claim C1
(base_pricing entry and tax_rate present) but lacking the
timeline_multipliers table the code dereferences unconditionally. -/
def c1CexRules : Rules :=
  { base_pricing := some [("website", [("medium", 10000)])]
    timeline_multipliers := none
    additional_services := none
    client_type_multipliers := none
    recurring_client_discount := none
    tax_rate := some (8/100) }

/-- C1 (amended).  For every project payload and rules table in which the
base_pricing entry for the (project_type, complexity) pair, the tax_rate,
and additionally the timeline_multipliers table are defined and the
additional_services table is defined whenever the brief lists services
(the code dereferences both tables with bracket access),
PricingAgent.calculate_pricing computes the breakdown by the §4.1 steps:
base_subtotal is base times timeline multiplier plus the per-service
add-on sum with unknown services contributing zero, adjusted is
base_subtotal times the client-type multiplier, discount_amount is
adjusted times the discount, subtotal is adjusted minus discount_amount,
tax is subtotal times tax_rate, total is subtotal plus tax.  The result
is a pure deterministic function of payload and rules (second conjunct:
the embedding is a function, so repeated calls on identical inputs give
identical results), and on the §8 example brief and rules the total
equals 10800. -/
theorem C1_pricing_breakdown (pd : ProjectData) (rules : Rules)
    (bp : List (String × List (String × ℚ))) (byType : List (String × ℚ))
    (base : ℚ) (tmt : List (String × ℚ)) (tr : ℚ)
    (hbp : rules.base_pricing = some bp)
    (hbt : dictGet bp pd.project_type = some byType)
    (hbase : dictGet byType pd.complexity = some base)
    (htm : rules.timeline_multipliers = some tmt)
    (htax : rules.tax_rate = some tr)
    (hsvc : rules.additional_services ≠ none ∨ pd.additional_services = []) :
    (calculate_pricing pd rules =
      .ok (let tm := (dictGet tmt (toString pd.timeline_weeks)).getD 1
           let ac := additionalCostSpec (rules.additional_services.getD []) pd.additional_services
           let cm := (dictGet (rules.client_type_multipliers.getD []) pd.client_type).getD 1
           let disc := recurringDiscount rules pd.is_recurring_client pd.projects_completed_before
           let base_subtotal := base * tm + ac
           let adjusted := base_subtotal * cm
           let discount_amount := adjusted * disc
           let subtotal := adjusted - discount_amount
           let tax := subtotal * tr
           { base_price := base
             timeline_multiplier := tm
             additional_services_cost := ac
             base_subtotal := base_subtotal
             client_type_multiplier := cm
             recurring_discount_rate := disc
             discount_amount := discount_amount
             subtotal := subtotal
             tax := tax
             total := subtotal + tax
             project_details := pd })) ∧
    calculate_pricing pd rules = calculate_pricing pd rules ∧
    (calculate_pricing c1ExampleBrief c1ExampleRules).map PricingBreakdown.total = .ok 10800 := by
  refine ⟨calculate_pricing_spec pd rules bp byType base tmt tr hbp hbt hbase htm htax hsvc,
    rfl, ?_⟩
  have h := calculate_pricing_spec c1ExampleBrief c1ExampleRules
    [("website", [("medium", 10000)])] [("medium", 10000)] 10000 [("4", 1)] (8/100)
    rfl rfl rfl rfl rfl (Or.inr rfl)
  rw [h]
  simp only [Except.map, Except.ok.injEq]
  norm_num [c1ExampleRules, c1ExampleBrief, additionalCostSpec, recurringDiscount,
    show dictGet [("4", (1:ℚ))] (toString (4:Nat)) = some 1 from rfl,
    show dictGet [("enterprise", (1:ℚ))] "enterprise" = some 1 from rfl]

/-- C1 counterexample.  A rules table with the base_pricing entry for the
pair and the tax_rate both defined, on which calculate_pricing
nevertheless fails, because the timeline_multipliers table is absent and
the code dereferences it with bracket access; the claim as stated demands
the computed breakdown under these premises alone. -/
theorem C1_pricing_breakdown_cex :
    lookupBase c1CexRules "website" "medium" = some 10000 ∧
    c1CexRules.tax_rate = some (8/100) ∧
    calculate_pricing c1ExampleBrief c1CexRules = .error "KeyError: timeline_multipliers" := by
  refine ⟨rfl, rfl, ?_⟩
  rfl

/-- C1 witness: the amended theorem applied at the §8 example input. -/
theorem C1_pricing_breakdown_witness :
    (calculate_pricing c1ExampleBrief c1ExampleRules).map PricingBreakdown.total = .ok 10800 :=
  (C1_pricing_breakdown c1ExampleBrief c1ExampleRules
    [("website", [("medium", 10000)])] [("medium", 10000)] 10000 [("4", 1)] (8/100)
    rfl rfl rfl rfl rfl (Or.inr rfl)).2.2

/-- The breakdown field recurring_discount_rate always carries the value
of the discount computation, whatever the other lookups do. -/
theorem calculate_pricing_discount_rate (pd : ProjectData) (rules : Rules) :
    (calculate_pricing pd rules).map (fun br => br.recurring_discount_rate) =
      (calculate_pricing pd rules).map (fun _ =>
        recurringDiscount rules pd.is_recurring_client pd.projects_completed_before) := by
  cases hbp : rules.base_pricing with
  | none => simp [calculate_pricing, hbp, Except.map]
  | some bp =>
    cases hbt : dictGet bp pd.project_type with
    | none => simp [calculate_pricing, hbp, hbt, Except.map]
    | some byType =>
      cases hbase : dictGet byType pd.complexity with
      | none => simp [calculate_pricing, hbp, hbt, hbase, Except.map]
      | some base =>
        cases htm : rules.timeline_multipliers with
        | none => simp [calculate_pricing, hbp, hbt, hbase, htm, Except.map]
        | some tmt =>
          cases hac : computeAdditionalCost rules pd.additional_services with
          | error e => simp [calculate_pricing, hbp, hbt, hbase, htm, hac, Except.map]
          | ok ac =>
            cases htax : rules.tax_rate with
            | none => simp [calculate_pricing, hbp, hbt, hbase, htm, hac, htax, Except.map]
            | some tr => simp [calculate_pricing, hbp, hbt, hbase, htm, hac, htax, Except.map]

/-- A rules table whose recurring_client_discount key is absent, so the
default base discount applies. -/
def c4DefaultRules : Rules :=
  { base_pricing := none
    timeline_multipliers := none
    additional_services := none
    client_type_multipliers := none
    recurring_client_discount := none
    tax_rate := none }

/-- A recurring-client brief with one prior project. -/
def c4WitnessBrief : ProjectData :=
  { project_type := "website", complexity := "medium", timeline_weeks := 4,
    additional_services := [], is_recurring_client := true,
    client_type := "enterprise", projects_completed_before := 1 }

/-- C4.  For every brief with the recurring flag set and every rules
table, the applied discount rate is monotonically non-decreasing in the
prior-project count; it equals the base recurring discount (rules value,
default one tenth) plus the staircase bonus of five hundredths at five or
more prior projects, three hundredths at three or more, two hundredths at
one or more, and zero otherwise; with the default base discount the rate
never exceeds fifteen hundredths; and the recurring_discount_rate field
of the breakdown computed by calculate_pricing carries exactly this
discount value. -/
theorem C4_discount_monotone (rules : Rules) (pd : ProjectData) (p q : Nat)
    (hrec : pd.is_recurring_client = true) (hpq : p ≤ q) :
    recurringDiscount rules pd.is_recurring_client p ≤
      recurringDiscount rules pd.is_recurring_client q ∧
    recurringDiscount rules pd.is_recurring_client p =
      rules.recurring_client_discount.getD (1/10) +
        (if p ≥ 5 then 5/100 else if p ≥ 3 then 3/100 else if p ≥ 1 then 2/100 else 0) ∧
    (rules.recurring_client_discount = none →
      recurringDiscount rules pd.is_recurring_client q ≤ 15/100) ∧
    (calculate_pricing pd rules).map (fun br => br.recurring_discount_rate) =
      (calculate_pricing pd rules).map (fun _ =>
        recurringDiscount rules pd.is_recurring_client pd.projects_completed_before) := by
  rw [hrec]
  refine ⟨?_, ?_, ?_, hrec ▸ calculate_pricing_discount_rate pd rules⟩
  · simp only [recurringDiscount, if_true]
    split_ifs <;> linarith
  · simp only [recurringDiscount, if_true]
    split_ifs <;> simp
  · intro h
    simp only [recurringDiscount, h, Option.getD, if_true]
    split_ifs <;> norm_num

/-- C4 witness: the theorem applied to a recurring brief with prior
projects one and five under the default-discount rules. -/
theorem C4_discount_monotone_witness :
    c4WitnessBrief.is_recurring_client = true ∧ (1:Nat) ≤ 5 ∧
    (recurringDiscount c4DefaultRules c4WitnessBrief.is_recurring_client 1 ≤
      recurringDiscount c4DefaultRules c4WitnessBrief.is_recurring_client 5 ∧
    recurringDiscount c4DefaultRules c4WitnessBrief.is_recurring_client 1 =
      c4DefaultRules.recurring_client_discount.getD (1/10) +
        (if (1:Nat) ≥ 5 then 5/100 else if (1:Nat) ≥ 3 then 3/100 else if (1:Nat) ≥ 1 then 2/100 else 0) ∧
    (c4DefaultRules.recurring_client_discount = none →
      recurringDiscount c4DefaultRules c4WitnessBrief.is_recurring_client 5 ≤ 15/100) ∧
    (calculate_pricing c4WitnessBrief c4DefaultRules).map (fun br => br.recurring_discount_rate) =
      (calculate_pricing c4WitnessBrief c4DefaultRules).map (fun _ =>
        recurringDiscount c4DefaultRules c4WitnessBrief.is_recurring_client
          c4WitnessBrief.projects_completed_before)) :=
  ⟨rfl, by omega, C4_discount_monotone c4DefaultRules c4WitnessBrief 1 5 rfl (by omega)⟩

/-- C10.  For every message containing the six required fields,
validate_mcp returns true whenever the expected-type argument is falsy:
both when it is None (absent) and when it is the empty string, so
validating against the empty-string type performs no type check at all,
regardless of the message type tag. -/
theorem C10_validate_falsy (mcp : List (String × Val))
    (h : required_keys.all (fun k => hasKey mcp k) = true) :
    validate_mcp mcp none = true ∧ validate_mcp mcp (some "") = true := by
  constructor <;> simp [validate_mcp, h, truthyStr]

/-- C10 witness: a concrete envelope whose actual type tag is not the
empty string still validates against the empty-string expected type. -/
theorem C10_validate_falsy_witness :
    required_keys.all (fun k =>
      hasKey (create_mcp "PricingAgent" "Orchestrator" "PRICING_CALCULATED"
        "id1" "ts1" (.vdict [])) k) = true ∧
    (validate_mcp (create_mcp "PricingAgent" "Orchestrator" "PRICING_CALCULATED"
        "id1" "ts1" (.vdict [])) none = true ∧
     validate_mcp (create_mcp "PricingAgent" "Orchestrator" "PRICING_CALCULATED"
        "id1" "ts1" (.vdict [])) (some "") = true) :=
  ⟨rfl, C10_validate_falsy _ rfl⟩

/-- C3 counterexample.  The empty string differs from the envelope type
tag, yet validation against it succeeds, because a falsy expected type
skips the type check; the claim as stated demands failure against every
different type string. -/
theorem C3_roundtrip_cex :
    ("" : String) ≠ "PRICING_CALCULATED" ∧
    validate_mcp (create_mcp "PricingAgent" "Orchestrator" "PRICING_CALCULATED"
      "id1" "ts1" (.vdict [])) (some "") = true :=
  ⟨by decide, rfl⟩

/-- C3 (amended).  An envelope produced by create_mcp always passes
validate_mcp with no expected type, passes with its own type tag as the
expected type, and fails against every non-empty expected type string
different from its own type tag (the empty string is falsy in the check,
so validation against it passes without any type comparison). -/
theorem C3_roundtrip (s r t tid ts t' : String) (p : Val)
    (h1 : t' ≠ t) (h2 : t' ≠ "") :
    validate_mcp (create_mcp s r t tid ts p) none = true ∧
    validate_mcp (create_mcp s r t tid ts p) (some t) = true ∧
    validate_mcp (create_mcp s r t tid ts p) (some t') = false := by
  refine ⟨validate_create_none s r t tid ts p, ?_, ?_⟩
  · rw [validate_create_some]
    by_cases h : t = "" <;> simp [h]
  · rw [validate_create_some, if_neg h2]
    exact beq_eq_false_iff_ne.mpr (Ne.symm h1)

/-- C3 witness: the amended theorem at a concrete envelope and a concrete
different non-empty expected type. -/
theorem C3_roundtrip_witness :
    (("OTHER_TYPE" : String) ≠ "PRICING_CALCULATED" ∧ ("OTHER_TYPE" : String) ≠ "") ∧
    (validate_mcp (create_mcp "PricingAgent" "Orchestrator" "PRICING_CALCULATED"
        "id1" "ts1" (.vdict [])) none = true ∧
     validate_mcp (create_mcp "PricingAgent" "Orchestrator" "PRICING_CALCULATED"
        "id1" "ts1" (.vdict [])) (some "PRICING_CALCULATED") = true ∧
     validate_mcp (create_mcp "PricingAgent" "Orchestrator" "PRICING_CALCULATED"
        "id1" "ts1" (.vdict [])) (some "OTHER_TYPE") = false) :=
  ⟨⟨by decide, by decide⟩,
   C3_roundtrip "PricingAgent" "Orchestrator" "PRICING_CALCULATED" "id1" "ts1"
     "OTHER_TYPE" (.vdict []) (by decide) (by decide)⟩

/-- Unfolding lemma for the empty list. -/
theorem dedupFirst_nil : dedupFirst [] = [] := by
  rw [dedupFirst]

/-- Unfolding lemma for a head chunk: keep it and drop its later
case-insensitive duplicates. -/
theorem dedupFirst_cons (t : String) (rest : List String) :
    dedupFirst (t :: rest) =
      t :: dedupFirst (rest.filter (fun u => pyLower u ≠ pyLower t)) := by
  rw [dedupFirst]

/-- The imperative seen-set loop equals the declarative first-occurrence
deduplication of the stripped non-empty chunks not yet seen. -/
theorem cleanDedupAux_eq (l : List String) : ∀ seen : List String,
    cleanDedupAux seen l =
      dedupFirst (((l.map pyStrip).filter (fun t => t ≠ "")).filter
        (fun t => pyLower t ∉ seen)) := by
  induction l with
  | nil => intro seen; simp [cleanDedupAux, dedupFirst_nil]
  | cons s rest ih =>
    intro seen
    by_cases h1 : pyStrip s = ""
    · have lhs : cleanDedupAux seen (s :: rest) = cleanDedupAux seen rest := by
        simp [cleanDedupAux, h1]
      rw [lhs, ih seen]
      simp [h1]
    · by_cases h2 : pyLower (pyStrip s) ∈ seen
      · have lhs : cleanDedupAux seen (s :: rest) = cleanDedupAux seen rest := by
          simp [cleanDedupAux, h1, h2]
        rw [lhs, ih seen]
        simp [h1, h2]
      · have lhs : cleanDedupAux seen (s :: rest) =
            pyStrip s :: cleanDedupAux (pyLower (pyStrip s) :: seen) rest := by
          simp [cleanDedupAux, h1, h2]
        rw [lhs, ih (pyLower (pyStrip s) :: seen)]
        simp only [List.map_cons]
        rw [List.filter_cons_of_pos (by simp [h1]),
          List.filter_cons_of_pos (by simp [h2]), dedupFirst_cons]
        congr 1
        congr 1
        rw [List.filter_filter, List.filter_filter, List.filter_filter]
        apply List.filter_congr
        intro u _
        by_cases hu1 : pyLower u = pyLower (pyStrip s) <;>
          by_cases hu2 : pyLower u ∈ seen <;>
          by_cases hu3 : u = "" <;> simp [hu1, hu2, hu3]

/-- C7 counterexample.  On the input with a chunk that carries leading
whitespace, the code strips the chunk before rejoining while the claim
as stated keeps it verbatim, so the described algorithm and the function
disagree. -/
theorem C7_clean_text_cex :
    _clean_generated_text "A.  B" = "A. B." ∧
    cleanSpecC7 "A.  B" = "A.  B." ∧
    _clean_generated_text "A.  B" ≠ cleanSpecC7 "A.  B" := by
  refine ⟨by decide, by decide, by decide⟩

/-- C7 (amended).  For every input string, _clean_generated_text splits
the text into chunks on the period-space separator, strips each chunk of
surrounding whitespace, drops chunks that are empty after stripping and
every chunk whose lowercased stripped text has already been seen (keeping
first occurrences in order), rejoins the stripped survivors with the
period-space separator, appends a trailing period if the non-empty result
does not already end in one, and replaces the result by its first 120
whitespace-separated words joined by single spaces and followed by a
period exactly when it both exceeds 800 characters and contains more than
120 words. -/
theorem C7_clean_text (text : String) :
    _clean_generated_text text = cleanAmendedC7 text := by
  simp only [_clean_generated_text, cleanAmendedC7]
  rw [cleanDedupAux_eq]
  have hfilter : ∀ L : List String,
      L.filter (fun t => pyLower t ∉ ([] : List String)) = L := by
    intro L
    simp
  rw [hfilter]
  set cleaned := String.intercalate ". "
    (dedupFirst (((pySplitDotSpace text).map pyStrip).filter (fun t => t ≠ ""))) with hc
  set cleaned2 := if cleaned ≠ "" ∧ ¬ endsWithDot cleaned then cleaned ++ "." else cleaned with hc2
  by_cases hlen : cleaned2.length > 800 <;>
    by_cases hw : (pySplitWs cleaned2).length > 120 <;>
    simp [hlen, hw]

/-- A string beginning with a non-empty literal is non-empty. -/
theorem append_left_ne_empty (a b : String) (h : a ≠ "") : a ++ b ≠ "" := by
  intro hab
  have hdata := congrArg String.data hab
  simp [String.data_append] at hdata
  exact h (String.ext hdata.1)

/-- The writing-agent variables extracted from an empty payload: all
documented defaults. -/
def c5DefaultVars : WritingVars :=
  { client_name := "Our Valued Client"
    project_title := "Digital Transformation Project"
    project_description := "A comprehensive digital solution"
    timeline_months := "6"
    requirements := "Modern design, User-friendly interface, Scalable architecture"
    technologies := "React, Node.js, MongoDB"
    client_type := "business" }

set_option maxRecDepth 8000 in
/-- C5.  For every project MCP whose payload extraction succeeds, if any
exception is raised during the external text-generation calls, the
exception is caught and generate_proposal_sections still returns a
PROPOSAL_SECTIONS_GENERATED envelope whose sections payload contains
exactly the three keys executive_summary, project_overview and
methodology, each mapped to a non-empty string built deterministically
from the input variables; content generation never aborts the
pipeline. -/
theorem C5_writing_fallback (llm : String → Except String String)
    (tid ts : String) (m : Mcp) (v : WritingVars) (e : String)
    (hv : extractWritingVars m.payload = .ok v)
    (he : tryGenerateSections llm v = .error e) :
    generate_proposal_sections llm tid ts m =
      .ok (mkMcp "PROPOSAL_SECTIONS_GENERATED" "WritingAgent" "Orchestrator" tid ts
        (.vdict [("executive_summary", .vstr (fallbackExec v)),
                 ("project_overview", .vstr (fallbackOverview v)),
                 ("methodology", .vstr (fallbackMethodology v))])) ∧
    (fallbackSections v).map Prod.fst =
      ["executive_summary", "project_overview", "methodology"] ∧
    fallbackExec v ≠ "" ∧ fallbackOverview v ≠ "" ∧ fallbackMethodology v ≠ "" := by
  refine ⟨?_, rfl, ?_, ?_, ?_⟩
  · simp [generate_proposal_sections, hv, he, fallbackSections]
  · intro hab
    have hdata := congrArg String.data hab
    simp [fallbackExec, String.data_append] at hdata
  · intro hab
    have hdata := congrArg String.data hab
    simp [fallbackOverview, String.data_append] at hdata
  · intro hab
    have hdata := congrArg String.data hab
    simp [fallbackMethodology, String.data_append] at hdata

/-- C5 witness: the external generation call fails on an empty payload;
the agent returns the three fallback sections in one envelope. -/
theorem C5_writing_fallback_witness :
    extractWritingVars (mkMcp "PROPOSAL_REQUEST" "UserInterface" "Orchestrator"
      "id1" "ts1" (.vdict [])).payload = .ok c5DefaultVars ∧
    tryGenerateSections (fun _ => .error "ServiceDown") c5DefaultVars =
      .error "ServiceDown" ∧
    generate_proposal_sections (fun _ => .error "ServiceDown") "id1" "ts1"
      (mkMcp "PROPOSAL_REQUEST" "UserInterface" "Orchestrator" "id1" "ts1" (.vdict [])) =
      .ok (mkMcp "PROPOSAL_SECTIONS_GENERATED" "WritingAgent" "Orchestrator" "id1" "ts1"
        (.vdict [("executive_summary", .vstr (fallbackExec c5DefaultVars)),
                 ("project_overview", .vstr (fallbackOverview c5DefaultVars)),
                 ("methodology", .vstr (fallbackMethodology c5DefaultVars))])) :=
  ⟨rfl, rfl,
   (C5_writing_fallback (fun _ => .error "ServiceDown") "id1" "ts1"
     (mkMcp "PROPOSAL_REQUEST" "UserInterface" "Orchestrator" "id1" "ts1" (.vdict []))
     c5DefaultVars "ServiceDown" rfl rfl).1⟩

/-- Whether a computation succeeded. -/
def exceptIsOk {ε α : Type} : Except ε α → Bool
  | .ok _ => true
  | .error _ => false

/-- The error message of a failed computation, empty on success. -/
def exceptErr {α : Type} : Except String α → String
  | .error e => e
  | .ok _ => ""

/-- The successful result list of a retrieval, empty on failure. -/
def okCases (e : Except String (List RetrievedCase)) : List RetrievedCase :=
  match e with
  | .ok l => l
  | .error _ => []

/-- C6.  The claim is right and the code is wrong: an agent whose
case-studies file failed to load has an empty corpus but its index
attribute was never assigned, so retrieve_relevant_cases raises
AttributeError on the guard instead of returning the empty envelope
(first conjunct, the failing input); the intended degradation does work
when the file loads an empty corpus, which leaves index None (second
conjunct). -/
theorem C6_retrieval_degradation (search : String → Nat → List (ℚ × Int))
    (tid ts : String) (m : Mcp) (k : Nat) :
    retrieve_relevant_cases (CaseStudyAgent.init none) search tid ts m k =
      .error "AttributeError: CaseStudyAgent object has no attribute index" ∧
    retrieve_relevant_cases (CaseStudyAgent.init (some [])) search tid ts m k =
      .ok (emptyCasesEnvelope tid ts) := by
  constructor <;> rfl

/-- A list of pairwise-distinct integers all lying in a range of size n
has at most n elements. -/
theorem length_le_of_nodup_lt (l : List Int) (n : Nat)
    (hn : l.Nodup) (hb : ∀ i ∈ l, 0 ≤ i ∧ i < (n : Int)) : l.length ≤ n := by
  have hmap : (l.map Int.toNat).Nodup := by
    refine List.Nodup.map_on ?_ hn
    intro x hx y hy hxy
    have hx' := hb x hx
    have hy' := hb y hy
    omega
  have hsub : (l.map Int.toNat).toFinset ⊆ Finset.range n := by
    intro a ha
    rw [List.mem_toFinset] at ha
    obtain ⟨i, hi, rfl⟩ := List.mem_map.mp ha
    have := hb i hi
    rw [Finset.mem_range]
    omega
  have hcard := Finset.card_le_card hsub
  rw [List.toFinset_card_of_nodup hmap, Finset.card_range, List.length_map] at hcard
  exact hcard

/-- Collecting the search results succeeds, yields one record per
non-sentinel index, and each record copies a corpus entry, provided
every returned index is the sentinel or in range. -/
theorem collectCases_ok (cs : List CaseStudy) (res : List (ℚ × Int))
    (h : ∀ p ∈ res, p.2 = -1 ∨ (0 ≤ p.2 ∧ p.2 < (cs.length : Int))) :
    ∃ l, collectCases cs res = .ok l ∧
      l.length = ((res.map Prod.snd).filter (fun i => i ≠ -1)).length ∧
      ∀ c ∈ l, c.case ∈ cs := by
  induction res with
  | nil => exact ⟨[], rfl, rfl, by simp⟩
  | cons p rest ih =>
    obtain ⟨l, hl, hlen, hmem⟩ := ih (fun q hq => h q (List.mem_cons_of_mem _ hq))
    obtain ⟨score, idx⟩ := p
    by_cases hidx : idx = -1
    · subst hidx
      refine ⟨l, ?_, ?_, hmem⟩
      · simp [collectCases, hl]
      · simpa using hlen
    · rcases h (score, idx) (List.mem_cons_self _ _) with hb | hb
      · exact absurd hb hidx
      · have hnn : ¬ idx < 0 := by omega
        have hlt : idx.toNat < cs.length := by omega
        have hget : cs.get? idx.toNat = some (cs.get ⟨idx.toNat, hlt⟩) :=
          List.get?_eq_get hlt
        have hpg : pyListGet cs idx = .ok (cs.get ⟨idx.toNat, hlt⟩) := by
          simp only [pyListGet, if_neg hnn]
          rw [hget]
        refine ⟨{ case := cs.get ⟨idx.toNat, hlt⟩, similarity_score := score } :: l,
          ?_, ?_, ?_⟩
        · simp [collectCases, hidx, hpg, hl]
        · simp only [List.map_cons, List.filter_cons, hidx, ne_eq, not_false_iff,
            decide_not, List.length_cons]
          simp [hlen]
        · intro c hc
          rcases List.mem_cons.mp hc with hc | hc
          · subst hc
            exact List.get_mem cs _ _
          · exact hmem c hc

/-- C8.  For every k (including k larger than the corpus size) and every
non-empty loaded corpus with its built index, assuming only the
nearest-neighbor contract of the external search (each returned index is
the sentinel -1 or in corpus range, and the non-sentinel indices are
pairwise distinct), retrieve_relevant_cases succeeds: it returns at most
corpus-size records, every sentinel is excluded, every returned record is
a copy of a corpus record, and no out-of-range list access occurs (the
collection loop never raises IndexError). -/
theorem C8_retrieval_in_range (cs : List CaseStudy) (hcs : cs ≠ [])
    (search : String → Nat → List (ℚ × Int)) (tid ts : String) (m : Mcp) (k : Nat)
    (hvalid : ∀ p ∈ search (buildQuery m.payload.entries) k,
      p.2 = -1 ∨ (0 ≤ p.2 ∧ p.2 < (cs.length : Int)))
    (hnodup : (((search (buildQuery m.payload.entries) k).map Prod.snd).filter
      (fun i => i ≠ -1)).Nodup) :
    exceptIsOk (collectCases cs (search (buildQuery m.payload.entries) k)) = true ∧
    (okCases (collectCases cs (search (buildQuery m.payload.entries) k))).length ≤
      cs.length ∧
    (okCases (collectCases cs (search (buildQuery m.payload.entries) k))).all
      (fun c => cs.contains c.case) = true ∧
    retrieve_relevant_cases (CaseStudyAgent.init (some cs)) search tid ts m k =
      .ok (mkMcp "CASE_STUDIES_RETRIEVED" "CaseStudyAgent" "Orchestrator" tid ts
        (.vdict [("relevant_cases",
          .vlist ((okCases (collectCases cs (search (buildQuery m.payload.entries) k))).map
            RetrievedCase.toVal))])) := by
  obtain ⟨l, hl, hlen, hmem⟩ := collectCases_ok cs _ hvalid
  have hok : okCases (collectCases cs (search (buildQuery m.payload.entries) k)) = l := by
    rw [hl]
    rfl
  refine ⟨by rw [hl]; rfl, ?_, ?_, ?_⟩
  · rw [hok, hlen]
    refine length_le_of_nodup_lt _ _ hnodup ?_
    intro i hi
    rw [List.mem_filter] at hi
    obtain ⟨hi1, hi2⟩ := hi
    obtain ⟨p, hp, rfl⟩ := List.mem_map.mp hi1
    rcases hvalid p hp with hb | hb
    · simp [hb] at hi2
    · exact hb
  · rw [hok]
    rw [List.all_eq_true]
    intro c hc
    simpa [List.contains] using List.elem_eq_true_of_mem (hmem c hc)
  · rw [hok]
    simp only [retrieve_relevant_cases, CaseStudyAgent.init, if_pos hcs]
    simp [hcs, hl]

/-- A two-record corpus for the retrieval witness. -/
def c8Corpus : List CaseStudy :=
  [{ title := "Shop", industry := "Retail", project_type := "ecommerce",
     description := "An online store" },
   { title := "Portal", industry := "Health", project_type := "website",
     description := "A patient portal" }]

/-- A search oracle returning two matches and one sentinel row, as the
index does when k exceeds the corpus size. -/
def c8Search : String → Nat → List (ℚ × Int) :=
  fun _ _ => [(9/10, 0), (1/2, 1), (0, -1)]

/-- C8 witness: the theorem at the two-record corpus with k = 3. -/
theorem C8_retrieval_in_range_witness :
    c8Corpus ≠ [] ∧
    (∀ p ∈ c8Search (buildQuery (Mcp.payload (mkMcp "PROPOSAL_REQUEST" "UserInterface"
        "Orchestrator" "id1" "ts1" (.vdict []))).entries) 3,
      p.2 = -1 ∨ (0 ≤ p.2 ∧ p.2 < (c8Corpus.length : Int))) ∧
    (okCases (collectCases c8Corpus (c8Search (buildQuery (Mcp.payload
      (mkMcp "PROPOSAL_REQUEST" "UserInterface" "Orchestrator" "id1" "ts1"
        (.vdict []))).entries) 3))).length ≤ c8Corpus.length :=
  ⟨by decide, by decide,
   (C8_retrieval_in_range c8Corpus (by decide) c8Search "id1" "ts1"
     (mkMcp "PROPOSAL_REQUEST" "UserInterface" "Orchestrator" "id1" "ts1" (.vdict []))
     3 (by decide) (by decide)).2.1⟩

/-- A failed base-price lookup makes calculate_pricing raise: the KeyError
comes from whichever level of the nested bracket access is missing. -/
theorem calculate_pricing_error_of_missing_base (pd : ProjectData) (rules : Rules)
    (hmiss : lookupBase rules pd.project_type pd.complexity = none) :
    calculate_pricing pd rules = .error (exceptErr (calculate_pricing pd rules)) ∧
    exceptIsOk (calculate_pricing pd rules) = false := by
  have hcp : ∃ msg, calculate_pricing pd rules = .error msg := by
    cases hbp : rules.base_pricing with
    | none => exact ⟨"KeyError: base_pricing", by simp [calculate_pricing, hbp]⟩
    | some bp =>
      cases hbt : dictGet bp pd.project_type with
      | none =>
        exact ⟨"KeyError: " ++ pd.project_type, by simp [calculate_pricing, hbp, hbt]⟩
      | some byType =>
        have hmiss2 : dictGet byType pd.complexity = none := by
          simpa [lookupBase, hbp, hbt] using hmiss
        exact ⟨"KeyError: " ++ pd.complexity,
          by simp [calculate_pricing, hbp, hbt, hmiss2]⟩
  obtain ⟨msg, hmsg⟩ := hcp
  rw [hmsg]
  exact ⟨rfl, rfl⟩

/-- C2.  If the rules table has no base_pricing entry for the brief pair,
PricingAgent.calculate_pricing fails with a KeyError (no silent default
price is applied), and ProposalOrchestrator.generate_complete_proposal
then returns an envelope (the model is a total function, so the caller
never sees an uncaught exception) of type GENERATION_ERROR whose payload
carries the error message as a string under the error key and the
best-effort partial data (empty, since pricing is the first stage) under
the partial_data key. -/
theorem C2_missing_pricing_entry (rules : Rules) (pd : ProjectData)
    (project_data : List (String × Val)) (tid ts : String)
    (writing cases template : Mcp → Except String Mcp)
    (hx : extractProjectData (.vdict project_data) = .ok pd)
    (hmiss : lookupBase rules pd.project_type pd.complexity = none) :
    exceptIsOk (calculate_pricing pd rules) = false ∧
    generate_complete_proposal (pricingAgentStage rules tid ts) writing cases template
        project_data tid ts =
      generationErrorEnvelope tid ts (exceptErr (calculate_pricing pd rules)) [] ∧
    (generate_complete_proposal (pricingAgentStage rules tid ts) writing cases template
        project_data tid ts).type = "GENERATION_ERROR" ∧
    (generate_complete_proposal (pricingAgentStage rules tid ts) writing cases template
        project_data tid ts).payload =
      .vdict [("error", .vstr (exceptErr (calculate_pricing pd rules))),
              ("partial_data", .vdict [])] := by
  obtain ⟨hmsg, hisok⟩ := calculate_pricing_error_of_missing_base pd rules hmiss
  have hstage : pricingAgentStage rules tid ts
      (mkMcp "PROPOSAL_REQUEST" "UserInterface" "Orchestrator" tid ts
        (.vdict project_data)) =
      .error (exceptErr (calculate_pricing pd rules)) := by
    simp only [pricingAgentStage, mkMcp]
    rw [hx, ok_bind, hmsg, error_bind]
    rfl
  have hgen : generate_complete_proposal (pricingAgentStage rules tid ts) writing cases
      template project_data tid ts =
      generationErrorEnvelope tid ts (exceptErr (calculate_pricing pd rules)) [] := by
    simp only [generate_complete_proposal, orchestratorStage1, hstage, error_bind]
  exact ⟨hisok, hgen, by rw [hgen]; rfl, by rw [hgen]; rfl⟩

/-- C2 witness: the empty-payload brief against the all-empty rules table
drives the pipeline into the GENERATION_ERROR envelope. -/
theorem C2_missing_pricing_entry_witness :
    extractProjectData (.vdict []) = .ok c1ExampleBrief ∧
    lookupBase c4DefaultRules c1ExampleBrief.project_type c1ExampleBrief.complexity = none ∧
    (generate_complete_proposal (pricingAgentStage c4DefaultRules "id1" "ts1")
      (fun m => .ok m) (fun m => .ok m) (fun m => .ok m) [] "id1" "ts1").type =
      "GENERATION_ERROR" :=
  ⟨rfl, rfl,
   (C2_missing_pricing_entry c4DefaultRules c1ExampleBrief [] "id1" "ts1"
     (fun m => .ok m) (fun m => .ok m) (fun m => .ok m) rfl rfl).2.2.1⟩

/-- Validating a structured envelope against a non-empty expected type
reduces to comparing its type tag. -/
theorem validate_toDict (m : Mcp) (t : String) :
    validate_mcp m.toDict (some t) = (if t = "" then true else m.type == t) :=
  validate_create_some m.sender m.receiver m.type m.trace_id m.timestamp t m.payload

/-- Last-wins lookup over an append prefers the right-hand list: this is
the overwrite direction of the Python dict splat merge. -/
theorem dictGet_append {α : Type} (a b : List (String × α)) (k : String) :
    dictGet (a ++ b) k =
      match dictGet b k with
      | some r => some r
      | none => dictGet a k := by
  induction a with
  | nil =>
    simp only [List.nil_append, dictGet]
    cases dictGet b k <;> rfl
  | cons p a ih =>
    obtain ⟨k', v⟩ := p
    show (match dictGet (a ++ b) k with
          | some r => some r
          | none => if k' = k then some v else none) = _
    rw [ih]
    cases dictGet b k <;> rfl

/-- When every stage returns a well-typed envelope with the payload key
its consumer reads, the first orchestrator block extracts the three
payload values. -/
theorem orchestratorStage1_ok
    (pricing writing cases : Mcp → Except String Mcp) (project_mcp : Mcp)
    (pm sm cm : Mcp) (pv sv cv : Val) (q : ℚ) (ns nc : Nat)
    (hp : pricing project_mcp = .ok pm) (hpt : pm.type = "PRICING_CALCULATED")
    (hpv : getKey pm.payload "pricing" = .ok pv)
    (htv : getKey pv "total" = .ok (.vnum q))
    (hw : writing project_mcp = .ok sm) (hwt : sm.type = "PROPOSAL_SECTIONS_GENERATED")
    (hsv : getKey sm.payload "sections" = .ok sv) (hsl : pyLen sv = .ok ns)
    (hc : cases project_mcp = .ok cm) (hct : cm.type = "CASE_STUDIES_RETRIEVED")
    (hcv : getKey cm.payload "relevant_cases" = .ok cv) (hcl : pyLen cv = .ok nc) :
    orchestratorStage1 pricing writing cases project_mcp = .ok (pv, sv, cv) := by
  have v1 : validate_mcp pm.toDict (some "PRICING_CALCULATED") = true := by
    rw [validate_toDict, if_neg (by decide), hpt]
    rfl
  have v2 : validate_mcp sm.toDict (some "PROPOSAL_SECTIONS_GENERATED") = true := by
    rw [validate_toDict, if_neg (by decide), hwt]
    rfl
  have v3 : validate_mcp cm.toDict (some "CASE_STUDIES_RETRIEVED") = true := by
    rw [validate_toDict, if_neg (by decide), hct]
    rfl
  simp only [orchestratorStage1, hp, ok_bind, v1, not_true, if_false, hpv, htv,
    formatNum, hw, v2, hsv, hsl, hc, v3, hcv, hcl, ite_false]
  rfl

/-- The template agent produces either the PDF envelope with the bytes
and the rendered HTML, or the HTML-only envelope with the degradation
note. -/
theorem generate_pdf_proposal_shape (renderHtml : Val → String)
    (pdfRender : String → Option (List Nat)) (tid ts : String) (m : Mcp) :
    (∃ bs, pdfRender (renderHtml m.payload) = some bs ∧ bs ≠ [] ∧
      generate_pdf_proposal renderHtml pdfRender tid ts m =
        mkMcp "PDF_GENERATED" "TemplateAgent" "Orchestrator" tid ts
          (.vdict [("pdf_bytes", .vbytes bs),
                   ("html_content", .vstr (renderHtml m.payload))])) ∨
    generate_pdf_proposal renderHtml pdfRender tid ts m =
      mkMcp "HTML_GENERATED" "TemplateAgent" "Orchestrator" tid ts
        (.vdict [("html_content", .vstr (renderHtml m.payload)),
                 ("note", .vstr htmlNote)]) := by
  simp only [generate_pdf_proposal]
  cases hr : pdfRender (renderHtml m.payload) with
  | none =>
    right
    simp [hr]
  | some bs =>
    by_cases hbs : bs = []
    · right
      simp [hr, hbs]
    · left
      exact ⟨bs, rfl, hbs, by simp [hr, hbs]⟩

/-- The template stage as the orchestrator invokes it: the agent catches
every rendering failure internally, so the call itself always returns. -/
def templateStage (renderHtml : Val → String) (pdfRender : String → Option (List Nat))
    (trace_id timestamp : String) : Mcp → Except String Mcp :=
  fun mc => .ok (generate_pdf_proposal renderHtml pdfRender trace_id timestamp mc)

/-- The envelope the template agent produces for the combined data of a
successful run. -/
def c9Tmpl (renderHtml : Val → String) (pdfRender : String → Option (List Nat))
    (trace_id timestamp : String) (project_data : List (String × Val))
    (pv sv cv : Val) : Mcp :=
  generate_pdf_proposal renderHtml pdfRender trace_id timestamp
    (mkMcp "GENERATE_PDF" "Orchestrator" "TemplateAgent" trace_id timestamp
      (.vdict (combinedPayload project_data pv sv cv)))

/-- Looking up the pricing key in the combined payload always finds the
pricing stage output, whatever the brief contained. -/
theorem dictGet_combined_pricing (project_data : List (String × Val)) (pv sv cv : Val) :
    dictGet (combinedPayload project_data pv sv cv) "pricing" = some pv := by
  rw [combinedPayload, dictGet_append]
  rfl

/-- Looking up the sections key in the combined payload always finds the
writing stage output. -/
theorem dictGet_combined_sections (project_data : List (String × Val)) (pv sv cv : Val) :
    dictGet (combinedPayload project_data pv sv cv) "sections" = some sv := by
  rw [combinedPayload, dictGet_append]
  rfl

/-- Looking up the relevant_cases key in the combined payload always
finds the retrieval stage output. -/
theorem dictGet_combined_cases (project_data : List (String × Val)) (pv sv cv : Val) :
    dictGet (combinedPayload project_data pv sv cv) "relevant_cases" = some cv := by
  rw [combinedPayload, dictGet_append]
  rfl

/-- C9.  On a successful run (each agent stage returns a well-typed
envelope carrying the payload key the orchestrator reads), the final
envelope is exactly the combined payload, that is the union of the
original brief fields with the pricing breakdown under the pricing key,
the sections under the sections key and the retrieved cases under the
relevant_cases key, extended by the document-renderer output fields,
which overwrite any earlier key of the same name under the last-wins
lookup; consequently the success envelope type is PDF_GENERATED or
HTML_GENERATED, its payload always carries the price and the proposal
sections, and the document content is pdf_bytes together with
html_content in the PDF case or html_content together with the
explanatory note in the HTML case. -/
theorem C9_final_merge
    (pricing writing cases : Mcp → Except String Mcp)
    (renderHtml : Val → String) (pdfRender : String → Option (List Nat))
    (project_data : List (String × Val)) (tid ts : String)
    (pm sm cm : Mcp) (pv sv cv : Val) (q : ℚ) (ns nc : Nat)
    (hp : pricing (mkMcp "PROPOSAL_REQUEST" "UserInterface" "Orchestrator" tid ts
      (.vdict project_data)) = .ok pm)
    (hpt : pm.type = "PRICING_CALCULATED")
    (hpv : getKey pm.payload "pricing" = .ok pv)
    (htv : getKey pv "total" = .ok (.vnum q))
    (hw : writing (mkMcp "PROPOSAL_REQUEST" "UserInterface" "Orchestrator" tid ts
      (.vdict project_data)) = .ok sm)
    (hwt : sm.type = "PROPOSAL_SECTIONS_GENERATED")
    (hsv : getKey sm.payload "sections" = .ok sv)
    (hsl : pyLen sv = .ok ns)
    (hc : cases (mkMcp "PROPOSAL_REQUEST" "UserInterface" "Orchestrator" tid ts
      (.vdict project_data)) = .ok cm)
    (hct : cm.type = "CASE_STUDIES_RETRIEVED")
    (hcv : getKey cm.payload "relevant_cases" = .ok cv)
    (hcl : pyLen cv = .ok nc) :
    generate_complete_proposal pricing writing cases
        (templateStage renderHtml pdfRender tid ts) project_data tid ts =
      mkMcp (c9Tmpl renderHtml pdfRender tid ts project_data pv sv cv).type
        "Orchestrator" "UserInterface" tid ts
        (.vdict (combinedPayload project_data pv sv cv ++
          (c9Tmpl renderHtml pdfRender tid ts project_data pv sv cv).payload.entries)) ∧
    ((c9Tmpl renderHtml pdfRender tid ts project_data pv sv cv).type = "PDF_GENERATED" ∨
     (c9Tmpl renderHtml pdfRender tid ts project_data pv sv cv).type = "HTML_GENERATED") ∧
    dictGet (combinedPayload project_data pv sv cv ++
      (c9Tmpl renderHtml pdfRender tid ts project_data pv sv cv).payload.entries)
      "pricing" = some pv ∧
    dictGet (combinedPayload project_data pv sv cv ++
      (c9Tmpl renderHtml pdfRender tid ts project_data pv sv cv).payload.entries)
      "sections" = some sv ∧
    dictGet (combinedPayload project_data pv sv cv ++
      (c9Tmpl renderHtml pdfRender tid ts project_data pv sv cv).payload.entries)
      "relevant_cases" = some cv ∧
    ((c9Tmpl renderHtml pdfRender tid ts project_data pv sv cv).type = "PDF_GENERATED" →
      (dictGet (combinedPayload project_data pv sv cv ++
        (c9Tmpl renderHtml pdfRender tid ts project_data pv sv cv).payload.entries)
        "pdf_bytes").isSome = true ∧
      dictGet (combinedPayload project_data pv sv cv ++
        (c9Tmpl renderHtml pdfRender tid ts project_data pv sv cv).payload.entries)
        "html_content" =
        some (.vstr (renderHtml (.vdict (combinedPayload project_data pv sv cv))))) ∧
    ((c9Tmpl renderHtml pdfRender tid ts project_data pv sv cv).type = "HTML_GENERATED" →
      dictGet (combinedPayload project_data pv sv cv ++
        (c9Tmpl renderHtml pdfRender tid ts project_data pv sv cv).payload.entries)
        "html_content" =
        some (.vstr (renderHtml (.vdict (combinedPayload project_data pv sv cv)))) ∧
      dictGet (combinedPayload project_data pv sv cv ++
        (c9Tmpl renderHtml pdfRender tid ts project_data pv sv cv).payload.entries)
        "note" = some (.vstr htmlNote)) := by
  have hstage1 := orchestratorStage1_ok pricing writing cases
    (mkMcp "PROPOSAL_REQUEST" "UserInterface" "Orchestrator" tid ts (.vdict project_data))
    pm sm cm pv sv cv q ns nc hp hpt hpv htv hw hwt hsv hsl hc hct hcv hcl
  rcases generate_pdf_proposal_shape renderHtml pdfRender tid ts
      (mkMcp "GENERATE_PDF" "Orchestrator" "TemplateAgent" tid ts
        (.vdict (combinedPayload project_data pv sv cv))) with
    ⟨bs, hbs, hbsne, htm⟩ | htm
  · have hstage2 : orchestratorStage2 (templateStage renderHtml pdfRender tid ts)
        (combinedPayload project_data pv sv cv) tid ts =
        .ok (mkMcp "PDF_GENERATED" "Orchestrator" "UserInterface" tid ts
          (.vdict (combinedPayload project_data pv sv cv ++
            [("pdf_bytes", .vbytes bs),
             ("html_content",
              .vstr (renderHtml (.vdict (combinedPayload project_data pv sv cv))))]))) := by
      simp only [orchestratorStage2, templateStage, ok_bind, htm]
      simp [validate_toDict, mkMcp]
    have hfinal : generate_complete_proposal pricing writing cases
        (templateStage renderHtml pdfRender tid ts) project_data tid ts =
        mkMcp "PDF_GENERATED" "Orchestrator" "UserInterface" tid ts
          (.vdict (combinedPayload project_data pv sv cv ++
            [("pdf_bytes", .vbytes bs),
             ("html_content",
              .vstr (renderHtml (.vdict (combinedPayload project_data pv sv cv))))])) := by
      simp only [generate_complete_proposal, hstage1, hstage2]
    refine ⟨?_, ?_, ?_, ?_, ?_, ?_, ?_⟩
    · rw [hfinal]
      simp only [c9Tmpl]
      rw [htm]
      rfl
    · left
      simp only [c9Tmpl]
      rw [htm]
      rfl
    · simp only [c9Tmpl]
      rw [htm, dictGet_append]
      exact dictGet_combined_pricing project_data pv sv cv
    · simp only [c9Tmpl]
      rw [htm, dictGet_append]
      exact dictGet_combined_sections project_data pv sv cv
    · simp only [c9Tmpl]
      rw [htm, dictGet_append]
      exact dictGet_combined_cases project_data pv sv cv
    · intro _
      constructor
      · simp only [c9Tmpl]
        rw [htm, dictGet_append]
        rfl
      · simp only [c9Tmpl]
        rw [htm, dictGet_append]
        rfl
    · intro habs
      simp only [c9Tmpl] at habs
      rw [htm] at habs
      simp [mkMcp] at habs
  · have hstage2 : orchestratorStage2 (templateStage renderHtml pdfRender tid ts)
        (combinedPayload project_data pv sv cv) tid ts =
        .ok (mkMcp "HTML_GENERATED" "Orchestrator" "UserInterface" tid ts
          (.vdict (combinedPayload project_data pv sv cv ++
            [("html_content",
              .vstr (renderHtml (.vdict (combinedPayload project_data pv sv cv)))),
             ("note", .vstr htmlNote)]))) := by
      simp only [orchestratorStage2, templateStage, ok_bind, htm]
      simp [validate_toDict, mkMcp]
    have hfinal : generate_complete_proposal pricing writing cases
        (templateStage renderHtml pdfRender tid ts) project_data tid ts =
        mkMcp "HTML_GENERATED" "Orchestrator" "UserInterface" tid ts
          (.vdict (combinedPayload project_data pv sv cv ++
            [("html_content",
              .vstr (renderHtml (.vdict (combinedPayload project_data pv sv cv)))),
             ("note", .vstr htmlNote)])) := by
      simp only [generate_complete_proposal, hstage1, hstage2]
    refine ⟨?_, ?_, ?_, ?_, ?_, ?_, ?_⟩
    · rw [hfinal]
      simp only [c9Tmpl]
      rw [htm]
      rfl
    · right
      simp only [c9Tmpl]
      rw [htm]
      rfl
    · simp only [c9Tmpl]
      rw [htm, dictGet_append]
      exact dictGet_combined_pricing project_data pv sv cv
    · simp only [c9Tmpl]
      rw [htm, dictGet_append]
      exact dictGet_combined_sections project_data pv sv cv
    · simp only [c9Tmpl]
      rw [htm, dictGet_append]
      exact dictGet_combined_cases project_data pv sv cv
    · intro habs
      simp only [c9Tmpl] at habs
      rw [htm] at habs
      simp [mkMcp] at habs
    · intro _
      constructor
      · simp only [c9Tmpl]
        rw [htm, dictGet_append]
        rfl
      · simp only [c9Tmpl]
        rw [htm, dictGet_append]
        rfl

/-- A concrete pricing stage for the merge witness. -/
def c9WPv : Val := .vdict [("total", .vnum 10800)]

/-- Concrete sections value for the merge witness. -/
def c9WSv : Val := .vdict [("executive_summary", .vstr "S")]

/-- Concrete retrieved-cases value for the merge witness. -/
def c9WCv : Val := .vlist []

/-- Concrete brief dictionary for the merge witness. -/
def c9WData : List (String × Val) := [("client_name", .vstr "Acme")]

/-- Concrete pricing stage function for the merge witness. -/
def c9WPricing : Mcp → Except String Mcp :=
  fun _ => .ok (mkMcp "PRICING_CALCULATED" "PricingAgent" "Orchestrator" "id1" "ts1"
    (.vdict [("pricing", c9WPv)]))

/-- Concrete writing stage function for the merge witness. -/
def c9WWriting : Mcp → Except String Mcp :=
  fun _ => .ok (mkMcp "PROPOSAL_SECTIONS_GENERATED" "WritingAgent" "Orchestrator"
    "id1" "ts1" (.vdict [("sections", c9WSv)]))

/-- Concrete retrieval stage function for the merge witness. -/
def c9WCases : Mcp → Except String Mcp :=
  fun _ => .ok (mkMcp "CASE_STUDIES_RETRIEVED" "CaseStudyAgent" "Orchestrator"
    "id1" "ts1" (.vdict [("relevant_cases", c9WCv)]))

/-- Concrete renderer oracle for the merge witness. -/
def c9WRender : Val → String := fun _ => "<html></html>"

/-- Concrete PDF conversion oracle for the merge witness. -/
def c9WPdf : String → Option (List Nat) := fun _ => some [37, 80, 68, 70]

/-- C9 witness: the merge theorem at fully concrete stages; the final
payload still finds the pricing value under the pricing key. -/
theorem C9_final_merge_witness :
    c9WPricing (mkMcp "PROPOSAL_REQUEST" "UserInterface" "Orchestrator" "id1" "ts1"
      (.vdict c9WData)) = .ok (mkMcp "PRICING_CALCULATED" "PricingAgent" "Orchestrator"
      "id1" "ts1" (.vdict [("pricing", c9WPv)])) ∧
    dictGet (combinedPayload c9WData c9WPv c9WSv c9WCv ++
      (c9Tmpl c9WRender c9WPdf "id1" "ts1" c9WData c9WPv c9WSv c9WCv).payload.entries)
      "pricing" = some c9WPv :=
  ⟨rfl,
   (C9_final_merge c9WPricing c9WWriting c9WCases c9WRender c9WPdf c9WData "id1" "ts1"
     (mkMcp "PRICING_CALCULATED" "PricingAgent" "Orchestrator" "id1" "ts1"
       (.vdict [("pricing", c9WPv)]))
     (mkMcp "PROPOSAL_SECTIONS_GENERATED" "WritingAgent" "Orchestrator" "id1" "ts1"
       (.vdict [("sections", c9WSv)]))
     (mkMcp "CASE_STUDIES_RETRIEVED" "CaseStudyAgent" "Orchestrator" "id1" "ts1"
       (.vdict [("relevant_cases", c9WCv)]))
     c9WPv c9WSv c9WCv 10800 1 0
     rfl rfl rfl rfl rfl rfl rfl rfl rfl rfl rfl rfl).2.2.1⟩
